import Mathlib

/-!
Verification of the AIR patch-review CLI client (`air-submit.py`).

The source is shallowly embedded below: each Python function that the
claims depend on is translated into a Lean definition of the same name.
The process's observable behaviour (printed lines, exit codes, network
requests issued) is made explicit: output is a `List String` of print
calls, exit codes are `Nat`, and each network request is recorded as a
value in a trace.  The ambient result of `sys.stdout.isatty()` is passed
as an explicit `isatty : Bool` argument, since Lean functions cannot
query a terminal; it models the value the Python code reads from the
environment at the moment of the call.
-/

namespace AirSubmit

-- ANSI color codes, from `class Colors` (`\033` is the ESC character).
namespace Colors

def RESET : String := "\x1b[0m"

def RED : String := "\x1b[91m"

def GREEN : String := "\x1b[92m"

def YELLOW : String := "\x1b[93m"

def BLUE : String := "\x1b[94m"

def CYAN : String := "\x1b[96m"

def BOLD : String := "\x1b[1m"

end Colors

/-- `colorize(text, color)`: wraps `text` in `color` and a reset code when
`sys.stdout.isatty()` is true, returns the plain text otherwise.  The
Python function reads the terminal state itself; `isatty` here is the
value that read returns. -/
def colorize (isatty : Bool) (text : String) (color : String) : String :=
  if isatty then color ++ text ++ Colors.RESET else text

/-- The review-status JSON object as used by the client once the
required `status` key is present: `patch_count`, `completed_patches`,
`queue-len` (field `queue_len` here), `message` and `review` are read
with `.get` and defaults, so they are optional. -/
structure Status where
  status : String
  patch_count : Int := 0
  completed_patches : Int := 0
  queue_len : Option String := none
  message : Option String := none
  review : List (Option String) := []
deriving DecidableEq, Repr

/-- `format_status_line(status)`: one-line colored status summary. -/
def format_status_line (isatty : Bool) (st : Status) : String :=
  let state := st.status
  let patch_count := st.patch_count
  let completed := st.completed_patches
  if state = "queued" then
    "Status: " ++ colorize isatty "queued" Colors.CYAN ++
      " (patches ahead: " ++ st.queue_len.getD "?" ++ ")"
  else if state = "in-progress" then
    if patch_count > 0 then
      "Status: " ++ colorize isatty "in-progress" Colors.YELLOW ++
        " (" ++ toString completed ++ "/" ++ toString patch_count ++ " patches completed)"
    else
      "Status: " ++ colorize isatty "in-progress" Colors.YELLOW ++ " (setting up...)"
  else if state = "done" then
    "Status: " ++ colorize isatty "done" (Colors.GREEN ++ Colors.BOLD) ++
      " (" ++ toString patch_count ++ " patches reviewed)"
  else if state = "error" then
    "Status: " ++ colorize isatty "error" (Colors.RED ++ Colors.BOLD) ++
      " - " ++ st.message.getD "unknown error"
  else
    "Status: " ++ state

/-- The `'='*80` separator line used by `print_reviews`. -/
def separator : String := String.mk (List.replicate 80 '=')

/-- One iteration of the `print_reviews` loop body, at index `p.1` (the
1-based `enumerate` counter) for entry `p.2`: four `print` calls — a
newline plus separator, the colored `PATCH i/patch_count` header, the
separator again, and the review body (or the fixed marker when the
entry is `None`). -/
def review_section (isatty : Bool) (patch_count : Int)
    (p : Nat × Option String) : List String :=
  ["\n" ++ separator,
   colorize isatty ("PATCH " ++ toString p.1 ++ "/" ++ toString patch_count)
     (Colors.BOLD ++ Colors.BLUE),
   separator,
   match p.2 with
   | none => colorize isatty "No review comments" Colors.GREEN
   | some r => r]

/-- `print_reviews(reviews, patch_count)`: the list of strings printed,
one element per `print` call.  The loop is
`for i, review in enumerate(reviews, 1)`, one section per entry of
`reviews`. -/
def print_reviews (isatty : Bool) (reviews : List (Option String))
    (patch_count : Int) : List String :=
  (reviews.enumFrom 1).flatMap (review_section isatty patch_count)

/-- `status['status'] in ('done', 'error')`: the polling loop's
termination test. -/
def isTerminal (state : String) : Bool :=
  state = "done" || state = "error"

/-- Python truthiness of an optional string (`argparse` yields `None`
when the flag is absent; an empty string is falsy too). -/
def truthyStr : Option String → Bool
  | none => false
  | some s => !(s = "")

/-- Python truthiness of an optional integer (`None` and `0` are falsy). -/
def truthyInt : Option Int → Bool
  | none => false
  | some n => !(n = 0)

/-- Python truthiness of an optional list (`None` and `[]` are falsy). -/
def truthyList : Option (List String) → Bool
  | none => false
  | some l => !l.isEmpty

/-- `url.rstrip('/')`: drop every trailing slash. -/
def rstripSlash (s : String) : String :=
  String.mk (s.data.reverse.dropWhile (fun c => c = '/')).reverse

/-- The JSON body built by `submit_review`: `token` and `tree` always,
then at most one of `patches` / `patchwork_series_id`, then `branch`
when truthy. -/
structure Payload where
  token : String
  tree : String
  patches : Option (List String) := none
  patchwork_series_id : Option Int := none
  branch : Option String := none
deriving DecidableEq, Repr

/-- What `submit_review` does before (or instead of) touching the
network: either it fails locally (`sys.exit(code)` after printing `msg`
to stderr, no request issued) or it issues a single POST of `payload`
to `apiUrl`. -/
inductive SubmitAction where
  | fatal (msg : String) (code : Nat)
  | post (apiUrl : String) (payload : Payload)
deriving DecidableEq, Repr

/-- The local part of `submit_review(url, token, tree, branch, patches,
patchwork_series_id)`: payload construction and the usage check, up to
the POST.  `if patches:` keeps a non-empty list, `elif
patchwork_series_id:` keeps a non-`None`, non-zero id, otherwise the
function prints an error and exits 1 without any network call. -/
def submit_review (url token tree : String) (branch : Option String)
    (patches : Option (List String)) (patchwork_series_id : Option Int) :
    SubmitAction :=
  let api_url := rstripSlash url ++ "/api/review"
  let withBranch : Payload → Payload := fun p =>
    if truthyStr branch then { p with branch := branch } else p
  if truthyList patches then
    .post api_url (withBranch { token := token, tree := tree, patches := patches })
  else if truthyInt patchwork_series_id then
    .post api_url (withBranch { token := token, tree := tree,
                                patchwork_series_id := patchwork_series_id })
  else
    .fatal "Error: Either patches or patchwork_series_id must be provided" 1

/-- The parsed command-line arguments that drive mode selection. -/
structure Args where
  url : String
  token : String
  review_id : Option String := none
  tree : Option String := none
  pw_series : Option Int := none
  patches : List String := []
  branch : Option String := none
deriving DecidableEq, Repr

/-- The first observable action of `main` after argument parsing:
`parser.error` (message to stderr, exit 2, no I/O), check-existing mode,
a local `submit_review` failure (exit 1, no I/O), or the submission
POST. -/
inductive MainAction where
  | parserError (msg : String)
  | checkMode (review_id : String)
  | submitFatal (msg : String) (code : Nat)
  | post (apiUrl : String) (payload : Payload)
deriving DecidableEq, Repr

/-- `parser.error` rejections are usage errors. -/
def isUsageReject : MainAction → Bool
  | .parserError _ => true
  | _ => false

/-- Lines 247-276 of `main`: argument validation and, for a new
submission, the call into `submit_review`.  `readFile` stands for
`read_patch_files` reading one file's contents (a missing file would
exit earlier; the claims below quantify over its result).  With a
truthy `--review-id` the tool goes straight to check mode; otherwise it
requires `--tree`, rejects `--pw-series` together with patch files,
rejects neither, and then submits by whichever input is present. -/
def validate_and_submit (args : Args) (readFile : String → String) : MainAction :=
  if truthyStr args.review_id then
    .checkMode (args.review_id.getD "")
  else if !truthyStr args.tree then
    .parserError "--tree is required when submitting new review"
  else if truthyInt args.pw_series && !args.patches.isEmpty then
    .parserError "Cannot specify both --pw-series and patch files"
  else if !truthyInt args.pw_series && args.patches.isEmpty then
    .parserError "Must specify either --pw-series or patch files"
  else if truthyInt args.pw_series then
    match submit_review args.url args.token (args.tree.getD "") args.branch
        none args.pw_series with
    | .fatal m c => .submitFatal m c
    | .post u p => .post u p
  else
    match submit_review args.url args.token (args.tree.getD "") args.branch
        (some (args.patches.map readFile)) none with
    | .fatal m c => .submitFatal m c
    | .post u p => .post u p

/-- The polling loop of `main` (`while True: status = get_review_status(...)`,
no `fmt`; break when terminal; else sleep one interval and repeat).  The
argument is the stream of statuses the server returns, one per request.
The result pairs the trace of requests issued by the loop — recorded as
the `fmt` value each `get_review_status` call is given, always `none`
here — with the status the loop stopped on (`none` if the stream ran
out, i.e. the loop is still running). -/
def pollLoopTrace : List Status → List (Option String) × Option Status
  | [] => ([], none)
  | s :: rest =>
    if isTerminal s.status then ([none], some s)
    else
      let t := pollLoopTrace rest
      (none :: t.1, t.2)

/-- One observable step of the monitored polling phase: either the next
`get_review_status` call returns a status, or a `KeyboardInterrupt`
arrives (before the next request is issued). -/
inductive PollEvent where
  | reply (s : Status)
  | interrupt
deriving DecidableEq, Repr

/-- How the monitoring phase ends. -/
inductive MonitorOutcome where
  | interrupted (printed : List String) (exitCode : Nat)
  | terminal (s : Status)
  | running
deriving DecidableEq, Repr

/-- Lines 316-334 of `main`: the `try`/`except KeyboardInterrupt` around
the polling loop.  An interrupt prints the review id and exits 1; a
terminal status breaks out of the loop. -/
def monitorLoop (review_id : String) : List PollEvent →
    List (Option String) × MonitorOutcome
  | [] => ([], .running)
  | .interrupt :: _ =>
    ([], .interrupted ["\n\nInterrupted by user. Review ID: " ++ review_id] 1)
  | .reply s :: rest =>
    if isTerminal s.status then ([none], .terminal s)
    else
      let t := monitorLoop review_id rest
      (none :: t.1, t.2)

/-- Lines 316-338 of `main`: the polling loop followed — only when the
loop broke on a terminal status — by the final
`get_review_status(..., fmt=args.format)` results fetch, recorded as a
request with `some fmt`.  After an interrupt `sys.exit(1)` runs first,
so no further request appears in the trace. -/
def monitor_and_fetch (review_id fmt : String) (events : List PollEvent) :
    List (Option String) × MonitorOutcome :=
  let t := monitorLoop review_id events
  match t.2 with
  | .terminal _ => (t.1 ++ [some fmt], t.2)
  | _ => t

/-- A raw JSON response body, keeping only the keys the client reads
before validating anything: both may be absent. -/
structure RawStatus where
  review_id : Option String := none
  status : Option String := none
deriving DecidableEq, Repr

/-- What an HTTP request can come back as: a
`requests.exceptions.RequestException` (transport failure or, via
`raise_for_status`, a non-2xx response), a body that is not JSON
(`json.JSONDecodeError`), or a parsed JSON object. -/
inductive HttpResponse where
  | transportError (e : String)
  | invalidJson (e : String)
  | ok (body : RawStatus)
deriving DecidableEq, Repr

/-- Result of one client call: a caught failure that prints `msg` and
exits `code`, or a value. -/
inductive CallResult (α : Type) where
  | fatalExit (msg : String) (code : Nat)
  | ok (v : α)
deriving DecidableEq, Repr

/-- The response handling of `submit_review` (lines 97-107): transport
errors and JSON decode errors are caught and turned into a fatal exit,
and so is the `KeyError` from `data['review_id']` when the key is
missing. -/
def submit_review_response (resp : HttpResponse) : CallResult String :=
  match resp with
  | .transportError e => .fatalExit ("Error submitting review: " ++ e) 1
  | .invalidJson e => .fatalExit ("Error parsing response: " ++ e) 1
  | .ok body =>
    match body.review_id with
    | some r => .ok r
    | none => .fatalExit "Error parsing response: review_id" 1

/-- The response handling of `get_review_status` (lines 132-141):
transport errors and JSON decode errors are caught and turned into a
fatal exit, but the parsed JSON object is returned whole — no key is
accessed, so nothing raises `KeyError` here. -/
def get_review_status_response (resp : HttpResponse) : CallResult RawStatus :=
  match resp with
  | .transportError e => .fatalExit ("Error querying review status: " ++ e) 1
  | .invalidJson e => .fatalExit ("Error parsing response: " ++ e) 1
  | .ok body => .ok body

/-- What happens once `main` touches the fetched status. -/
inductive StepOutcome where
  | fatalExit (msg : String) (code : Nat)
  | uncaughtKeyError
  | statusRead (state : String) (body : RawStatus)
deriving DecidableEq, Repr

/-- A status fetch as `main` consumes it: `get_review_status` followed by
the unguarded subscript `status['status']` (lines 293-298, 327, 345).
When the key is missing the `KeyError` is raised outside every handler
and propagates as an uncaught exception. -/
def fetch_and_read_status (resp : HttpResponse) : StepOutcome :=
  match get_review_status_response resp with
  | .fatalExit m c => .fatalExit m c
  | .ok body =>
    match body.status with
    | none => .uncaughtKeyError
    | some s => .statusRead s body

/-- Lines 340-354 of `main`: handling of the final fetched status.
Returns the lines printed and the exit code (0 = fall off the end of
`main`).  With an empty `review` list the tool prints
"No reviews available" and, on state `error`, the message and exits 1;
with a non-empty list it prints the reviews; in every case state
`error` forces exit code 1. -/
def handle_final (isatty : Bool) (fs : Status) : List String × Nat :=
  let reviews := fs.review
  let patch_count := fs.patch_count
  if reviews.isEmpty then
    if fs.status = "error" then
      (["No reviews available", "Error: " ++ fs.message.getD "Unknown error"], 1)
    else
      (["No reviews available"], 0)
  else
    (print_reviews isatty reviews patch_count,
     if fs.status = "error" then 1 else 0)

/-- Substring test (used to state what the printed output contains). -/
def containsSub (s pat : String) : Bool :=
  (List.range (s.data.length + 1)).any fun i =>
    (s.data.drop i).take pat.data.length = pat.data

/-- Whether a string contains the ANSI escape character, the first byte
of every color code. -/
def hasEsc (s : String) : Bool :=
  s.data.any fun c => c = '\x1b'

/-- A final status with state `error`, message `"boom"` and one
non-`None` review entry (a partial result). -/
def boomWithPartialResults : Status :=
  { status := "error", message := some "boom", review := [some "r1"], patch_count := 1 }

/-- A non-terminal in-progress status, used as sample polling data. -/
def sampleInProgress : Status :=
  { status := "in-progress", patch_count := 3, completed_patches := 1 }

/-- A terminal done status, used as sample polling data. -/
def sampleDone : Status := { status := "done", patch_count := 3 }

/-- Arguments supplying both a patchwork series and patch files. -/
def argsBothInputs : Args :=
  { url := "http://u", token := "tok", tree := some "net",
    pw_series := some 5, patches := ["a.patch"] }

/-- Arguments supplying neither a patchwork series nor patch files. -/
def argsNeitherInput : Args :=
  { url := "http://u", token := "tok", tree := some "net" }

/-- Arguments supplying patch files only. -/
def argsPatchFiles : Args :=
  { url := "http://u/", token := "tok", tree := some "net",
    patches := ["a.patch"] }

/-! ## Helper lemmas -/

lemma colorize_false (text color : String) : colorize false text color = text := rfl

lemma hasEsc_append (s t : String) : hasEsc (s ++ t) = (hasEsc s || hasEsc t) := by
  simp [hasEsc, String.data_append, List.any_append]

lemma digitChar_ne_esc (m : Nat) : Nat.digitChar m ≠ '\x1b' := by
  by_cases h : m < 17
  · interval_cases m <;> decide
  · unfold Nat.digitChar
    repeat rw [if_neg (by omega)]
    decide

lemma toDigitsCore_ne_esc (b : Nat) :
    ∀ (fuel n : Nat) (acc : List Char), (∀ c ∈ acc, c ≠ '\x1b') →
      ∀ c ∈ Nat.toDigitsCore b fuel n acc, c ≠ '\x1b' := by
  intro fuel
  induction fuel with
  | zero => intro n acc hacc c hc; exact hacc c hc
  | succ fuel ih =>
    intro n acc hacc c hc
    rw [Nat.toDigitsCore] at hc
    split at hc
    · rcases List.mem_cons.mp hc with h | h
      · exact h ▸ digitChar_ne_esc _
      · exact hacc c h
    · refine ih _ _ ?_ c hc
      intro d hd
      rcases List.mem_cons.mp hd with h | h
      · exact h ▸ digitChar_ne_esc _
      · exact hacc d h

lemma hasEsc_natRepr (n : Nat) : hasEsc (Nat.repr n) = false := by
  have : ∀ c ∈ Nat.toDigits 10 n, c ≠ '\x1b' :=
    toDigitsCore_ne_esc 10 (n + 1) n [] (by intro c hc; cases hc)
  simp only [hasEsc, Nat.repr, Nat.toDigits]
  rw [List.any_eq_false]
  intro c hc
  simpa using this c hc

lemma hasEsc_toString_int (i : Int) : hasEsc (toString i) = false := by
  show hasEsc (Int.repr i) = false
  cases i with
  | ofNat m => exact hasEsc_natRepr m
  | negSucc m =>
    show hasEsc ("-" ++ Nat.repr (m + 1)) = false
    rw [hasEsc_append, hasEsc_natRepr]
    decide

/-! ## Claim theorems -/

/-- C9: for every status record whose state is none of the four known
states, `format_status_line` falls through every branch and returns
`"Status: "` followed by the raw state string unmodified; being a total
function of the record, it cannot crash on such input. -/
theorem unknown_state_passthrough (isatty : Bool) (st : Status)
    (h1 : st.status ≠ "queued") (h2 : st.status ≠ "in-progress")
    (h3 : st.status ≠ "done") (h4 : st.status ≠ "error") :
    format_status_line isatty st = "Status: " ++ st.status := by
  unfold format_status_line
  rw [if_neg h1, if_neg h2, if_neg h3, if_neg h4]

/-- Witness for C9 at the unknown state `"paused"`. -/
theorem unknown_state_passthrough_witness :
    format_status_line false { status := "paused" } = "Status: " ++ "paused" :=
  unknown_state_passthrough false { status := "paused" }
    (by decide) (by decide) (by decide) (by decide)

/-- C10: `submit_review` called with an empty patches list and a
patchwork series id of `None` or `0` takes neither serialization
branch — both are falsy — and instead prints the usage error and exits
with code 1; the returned action is `fatal`, not `post`, so no network
request is issued, and in particular a series id of `0` is treated
exactly like an absent one. -/
theorem falsy_inputs_usage_error (url token tree : String)
    (branch : Option String) (patches : Option (List String)) (pw : Option Int)
    (hp : patches = none ∨ patches = some [])
    (hw : pw = none ∨ pw = some 0) :
    submit_review url token tree branch patches pw =
      .fatal "Error: Either patches or patchwork_series_id must be provided" 1 := by
  have hpl : truthyList patches = false := by
    rcases hp with h | h <;> simp [h, truthyList]
  have hwi : truthyInt pw = false := by
    rcases hw with h | h <;> simp [h, truthyInt]
  unfold submit_review
  rw [hpl, hwi]
  simp

/-- Witness for C10 at an empty patch list and series id `0`. -/
theorem falsy_inputs_usage_error_witness :
    submit_review "http://u" "tok" "net" none (some []) (some 0) =
      .fatal "Error: Either patches or patchwork_series_id must be provided" 1 :=
  falsy_inputs_usage_error "http://u" "tok" "net" none (some []) (some 0)
    (Or.inr rfl) (Or.inr rfl)

/-- C6 counterexample: `--review-id abc` together with a positional
patch file is not rejected — `main` takes the `if args.review_id`
branch first and enters check mode without any usage error, contrary to
the claim that the combination is rejected with exit code 1. -/
theorem review_id_with_patches_accepted :
    validate_and_submit
      { url := "http://u", token := "tok", review_id := some "abc",
        patches := ["0001-fix.patch"] } (fun _ => "") =
      .checkMode "abc" ∧
    isUsageReject (validate_and_submit
      { url := "http://u", token := "tok", review_id := some "abc",
        patches := ["0001-fix.patch"] } (fun _ => "")) = false := by
  constructor <;> rfl

/-- C6 amended: supplying `--review-id` does not produce a usage error;
it takes precedence, submission inputs are ignored, and the tool
proceeds straight to check mode on the given id. -/
theorem review_id_takes_precedence (args : Args) (readFile : String → String)
    (h : truthyStr args.review_id = true) :
    validate_and_submit args readFile = .checkMode (args.review_id.getD "") := by
  unfold validate_and_submit
  rw [h]
  simp

/-- Witness for the amended C6. -/
theorem review_id_takes_precedence_witness :
    validate_and_submit
      { url := "http://u", token := "tok", review_id := some "abc",
        pw_series := some 7 } (fun _ => "") = .checkMode "abc" :=
  review_id_takes_precedence
    { url := "http://u", token := "tok", review_id := some "abc",
      pw_series := some 7 } (fun _ => "") rfl

/-- C7 counterexample: a well-formed JSON response that lacks the
expected field is passed through `get_review_status` unchecked, and the
subsequent `status['status']` subscript in `main` raises an uncaught
`KeyError` — not the claimed fatal error message with a clean non-zero
exit.  At the same input, `submit_review`'s handling does catch the
`KeyError`, so the two failure semantics are not identical. -/
theorem missing_status_field_uncaught :
    fetch_and_read_status (.ok {}) = .uncaughtKeyError ∧
    submit_review_response (.ok {}) =
      .fatalExit "Error parsing response: review_id" 1 := by
  constructor <;> rfl

/-- C7 amended: `get_review_status` handles transport errors and
non-JSON bodies exactly like `submit_review` — a fatal message and exit
code 1 — but, unlike `submit_review`, it performs no field validation,
so a response missing the `status` field crashes `main` with an
uncaught `KeyError`. -/
theorem get_status_failure_semantics :
    (∀ e, get_review_status_response (.transportError e) =
      .fatalExit ("Error querying review status: " ++ e) 1) ∧
    (∀ e, get_review_status_response (.invalidJson e) =
      .fatalExit ("Error parsing response: " ++ e) 1) ∧
    (∀ body : RawStatus, body.status = none →
      fetch_and_read_status (.ok body) = .uncaughtKeyError) := by
  refine ⟨fun e => rfl, fun e => rfl, fun body h => ?_⟩
  simp [fetch_and_read_status, get_review_status_response, h]

/-- Witness for the amended C7. -/
theorem get_status_failure_semantics_witness :
    get_review_status_response (.transportError "connection refused") =
      .fatalExit ("Error querying review status: " ++ "connection refused") 1 ∧
    fetch_and_read_status (.ok {}) = .uncaughtKeyError :=
  ⟨get_status_failure_semantics.1 "connection refused",
   get_status_failure_semantics.2.2 {} rfl⟩

/-- C5 counterexample: `format_status_line` (through `colorize`) reads
the terminal state from the environment, not from an explicit flag, so
the same status record formats to different strings as the ambient
`sys.stdout.isatty()` value differs — two evaluations need not yield
the same output string. -/
theorem formatter_tty_dependent :
    format_status_line true { status := "queued", queue_len := some "3" } ≠
    format_status_line false { status := "queued", queue_len := some "3" } := by
  decide

/-- C5 amended: the formatter is deterministic only once the ambient
terminal state is fixed — it is a pure function of the status record
and of the `sys.stdout.isatty()` value read inside `colorize` (modeled
as the explicit `isatty` argument), and whenever that value is false
the produced line contains no ANSI escape, provided the strings taken
from the status record contain none. -/
theorem formatter_noninteractive_plain (st : Status)
    (h1 : hasEsc st.status = false)
    (h2 : hasEsc (st.queue_len.getD "?") = false)
    (h3 : hasEsc (st.message.getD "unknown error") = false) :
    hasEsc (format_status_line false st) = false := by
  simp only [format_status_line]
  split_ifs <;>
    simp only [colorize_false, hasEsc_append, hasEsc_toString_int,
      h1, h2, h3, Bool.or_false, Bool.false_or] <;>
    decide

/-- Witness for the amended C5 at a concrete in-progress status. -/
theorem formatter_noninteractive_plain_witness :
    hasEsc (format_status_line false
      { status := "in-progress", patch_count := 4, completed_patches := 2 }) =
      false :=
  formatter_noninteractive_plain
    { status := "in-progress", patch_count := 4, completed_patches := 2 }
    (by decide) (by decide) (by decide)

/-- C4 counterexample: on a final status with state `error`, message
`"boom"` and one non-`None` review entry, `main` prints the review
section and exits 1 — but the error message is never rendered: no
printed line contains `"boom"`.  The claim that the message is rendered
after whatever partial results exist fails here. -/
theorem final_error_message_suppressed :
    (handle_final false boomWithPartialResults).2 = 1 ∧
    ((handle_final false boomWithPartialResults).1.any
      fun l => containsSub l "boom") = false := by
  constructor
  · rfl
  · decide

/-- C4 amended: when the final fetched status has state `error` the
process always exits with code 1; the error message is rendered exactly
when the `review` list is empty, while a non-empty `review` list is
rendered through `print_reviews` without the message. -/
theorem final_error_exit_and_message (isatty : Bool) (fs : Status)
    (h : fs.status = "error") :
    (handle_final isatty fs).2 = 1 ∧
    (fs.review = [] →
      (handle_final isatty fs).1 =
        ["No reviews available", "Error: " ++ fs.message.getD "Unknown error"]) ∧
    (fs.review ≠ [] →
      (handle_final isatty fs).1 =
        print_reviews isatty fs.review fs.patch_count) := by
  unfold handle_final
  rcases hrev : fs.review with _ | ⟨a, rest⟩ <;> simp [h, hrev]

/-- Witness for the amended C4 at the spec's error scenario reply. -/
theorem final_error_exit_and_message_witness :
    (handle_final false { status := "error", message := some "boom" }).2 = 1 ∧
    (handle_final false { status := "error", message := some "boom" }).1 =
      ["No reviews available", "Error: " ++ "boom"] := by
  have := final_error_exit_and_message false
    { status := "error", message := some "boom" } rfl
  exact ⟨this.1, this.2.1 rfl⟩

lemma review_section_length (isatty : Bool) (pc : Int) (p : Nat × Option String) :
    (review_section isatty pc p).length = 4 := rfl

lemma sections_length (isatty : Bool) (pc : Int) :
    ∀ (k : Nat) (rs : List (Option String)),
      ((rs.enumFrom k).flatMap (review_section isatty pc)).length = 4 * rs.length := by
  intro k rs
  induction rs generalizing k with
  | nil => rfl
  | cons a l ih =>
    simp only [List.enumFrom, List.flatMap_cons, List.length_append,
      review_section_length, ih (k + 1), List.length_cons]
    omega

lemma sections_getElem (isatty : Bool) (pc : Int) :
    ∀ (k : Nat) (rs : List (Option String)) (i : Nat) (r : Option String) (j : Nat),
      j < 4 → rs[i]? = some r →
      ((rs.enumFrom k).flatMap (review_section isatty pc))[4 * i + j]? =
        (review_section isatty pc (k + i, r))[j]? := by
  intro k rs
  induction rs generalizing k with
  | nil => intro i r j hj hr; simp at hr
  | cons a l ih =>
    intro i r j hj hr
    cases i with
    | zero =>
      rw [List.getElem?_cons_zero, Option.some_inj] at hr
      subst hr
      simp only [List.enumFrom, List.flatMap_cons, Nat.mul_zero, Nat.zero_add,
        Nat.add_zero]
      rw [List.getElem?_append_left (by rw [review_section_length]; omega)]
    | succ n =>
      rw [List.getElem?_cons_succ] at hr
      simp only [List.enumFrom, List.flatMap_cons]
      rw [List.getElem?_append_right (by rw [review_section_length]; omega)]
      rw [review_section_length]
      have heq : 4 * (n + 1) + j - 4 = 4 * n + j := by omega
      rw [heq, ih (k + 1) n r j hj hr]
      have hk : k + 1 + n = k + (n + 1) := by omega
      rw [hk]

/-- C1 counterexample: with a single review entry and `patch_count = 2`,
`print_reviews` produces exactly one numbered section — four printed
lines, one of them containing "PATCH" — not the two sections the claim
requires; the loop runs over `reviews`, not over `1..patch_count`. -/
theorem print_reviews_short_list :
    print_reviews false [some "r"] 2 =
      ["\n" ++ separator, "PATCH 1/2", separator, "r"] ∧
    ((print_reviews false [some "r"] 2).countP
      fun l => containsSub l "PATCH") = 1 := by
  constructor
  · rfl
  · decide

/-- C1 amended: `print_reviews` produces exactly one numbered section
(four printed lines) per entry of `reviews` — so `len(reviews)`
sections, not `patchCount`; `patch_count` only appears in the text of
each header — and an absent (`None`) entry renders the fixed
"No review comments" marker in its section's body line. -/
theorem print_reviews_sections (isatty : Bool) (rs : List (Option String)) (pc : Int) :
    (print_reviews isatty rs pc).length = 4 * rs.length ∧
    (∀ i r, rs[i]? = some r →
      (print_reviews isatty rs pc)[4 * i + 1]? =
        some (colorize isatty ("PATCH " ++ toString (i + 1) ++ "/" ++ toString pc)
          (Colors.BOLD ++ Colors.BLUE)) ∧
      (print_reviews isatty rs pc)[4 * i + 3]? =
        some (match r with
          | none => colorize isatty "No review comments" Colors.GREEN
          | some text => text)) := by
  refine ⟨sections_length isatty pc 1 rs, fun i r hr => ?_⟩
  have h1 := sections_getElem isatty pc 1 rs i r 1 (by omega) hr
  have h3 := sections_getElem isatty pc 1 rs i r 3 (by omega) hr
  rw [Nat.add_comm 1 i] at h1 h3
  constructor
  · rw [print_reviews, h1]; rfl
  · rw [print_reviews, h3]; cases r <;> rfl

/-- Witness for the amended C1: two entries, the second absent. -/
theorem print_reviews_sections_witness :
    (print_reviews false [some "fix this", none] 2).length = 4 * 2 ∧
    (print_reviews false [some "fix this", none] 2)[4 * 1 + 1]? =
      some (colorize false ("PATCH " ++ toString (1 + 1) ++ "/" ++ toString (2 : Int))
        (Colors.BOLD ++ Colors.BLUE)) ∧
    (print_reviews false [some "fix this", none] 2)[4 * 1 + 3]? =
      some (colorize false "No review comments" Colors.GREEN) := by
  have h := print_reviews_sections false [some "fix this", none] 2
  have h2 := h.2 1 none rfl
  exact ⟨h.1, h2.1, h2.2⟩

lemma truthyInt_ne_none {o : Option Int} (h : truthyInt o = true) : o ≠ none := by
  cases o <;> simp [truthyInt] at h ⊢

lemma truthyList_ne_none {o : Option (List String)} (h : truthyList o = true) :
    o ≠ none := by
  cases o <;> simp [truthyList] at h ⊢

lemma submit_review_post_exclusive (url token tree : String)
    (branch : Option String) (patches : Option (List String)) (pw : Option Int)
    (u : String) (p : Payload)
    (h : submit_review url token tree branch patches pw = .post u p) :
    (p.patches ≠ none ∧ p.patchwork_series_id = none) ∨
    (p.patches = none ∧ p.patchwork_series_id ≠ none) := by
  simp only [submit_review] at h
  by_cases hp : truthyList patches = true
  · rw [if_pos hp] at h
    left
    by_cases hb : truthyStr branch = true
    · rw [if_pos hb] at h
      injection h with h1 h2
      rw [← h2]
      exact ⟨truthyList_ne_none hp, rfl⟩
    · rw [if_neg hb] at h
      injection h with h1 h2
      rw [← h2]
      exact ⟨truthyList_ne_none hp, rfl⟩
  · rw [if_neg hp] at h
    by_cases hw : truthyInt pw = true
    · rw [if_pos hw] at h
      right
      by_cases hb : truthyStr branch = true
      · rw [if_pos hb] at h
        injection h with h1 h2
        rw [← h2]
        exact ⟨rfl, truthyInt_ne_none hw⟩
      · rw [if_neg hb] at h
        injection h with h1 h2
        rw [← h2]
        exact ⟨rfl, truthyInt_ne_none hw⟩
    · rw [if_neg hw] at h
      exact absurd h (by simp)

/-- C2: in submission mode (no `--review-id`), the both-set and
neither-set combinations of `--pw-series` and patch files are rejected
by `parser.error` — a local usage failure (exit code 2, hence non-zero)
that precedes any network request, since `isUsageReject` actions carry
no POST — and every POST that is issued carries exactly one of
`patches` / `patchwork_series_id` in its payload. -/
theorem submission_payload_exclusive (args : Args) (readFile : String → String)
    (hrid : truthyStr args.review_id = false) :
    (truthyInt args.pw_series = true → args.patches ≠ [] →
      isUsageReject (validate_and_submit args readFile) = true) ∧
    (truthyInt args.pw_series = false → args.patches = [] →
      isUsageReject (validate_and_submit args readFile) = true) ∧
    (∀ u p, validate_and_submit args readFile = .post u p →
      (p.patches ≠ none ∧ p.patchwork_series_id = none) ∨
      (p.patches = none ∧ p.patchwork_series_id ≠ none)) := by
  refine ⟨?_, ?_, ?_⟩
  · intro h1 h2
    have hne : args.patches.isEmpty = false := by
      cases hp : args.patches with
      | nil => exact absurd hp h2
      | cons a l => rfl
    by_cases ht : truthyStr args.tree = true
    · simp [validate_and_submit, hrid, ht, h1, hne, isUsageReject]
    · simp [validate_and_submit, hrid, ht, isUsageReject]
  · intro h1 h2
    by_cases ht : truthyStr args.tree = true
    · simp [validate_and_submit, hrid, ht, h1, h2, isUsageReject]
    · simp [validate_and_submit, hrid, ht, isUsageReject]
  · intro u p h
    simp only [validate_and_submit, hrid] at h
    rw [if_neg (by simp)] at h
    by_cases ht : truthyStr args.tree = true
    · rw [if_neg (by simp [ht])] at h
      by_cases hboth : truthyInt args.pw_series && !args.patches.isEmpty
      · rw [if_pos hboth] at h
        exact absurd h (by simp)
      · rw [if_neg hboth] at h
        by_cases hneither : !truthyInt args.pw_series && args.patches.isEmpty
        · rw [if_pos hneither] at h
          exact absurd h (by simp)
        · rw [if_neg hneither] at h
          by_cases hw : truthyInt args.pw_series = true
          · rw [if_pos hw] at h
            cases hsr : submit_review args.url args.token (args.tree.getD "")
                args.branch none args.pw_series with
            | fatal m c => rw [hsr] at h; exact absurd h (by simp)
            | post u' p' =>
              rw [hsr] at h
              injection h with h1 h2
              rw [h1, h2] at hsr
              exact submit_review_post_exclusive _ _ _ _ _ _ _ _ hsr
          · rw [if_neg hw] at h
            cases hsr : submit_review args.url args.token (args.tree.getD "")
                args.branch (some (args.patches.map readFile)) none with
            | fatal m c => rw [hsr] at h; exact absurd h (by simp)
            | post u' p' =>
              rw [hsr] at h
              injection h with h1 h2
              rw [h1, h2] at hsr
              exact submit_review_post_exclusive _ _ _ _ _ _ _ _ hsr
    · rw [if_pos (by simp [ht])] at h
      exact absurd h (by simp)

/-- Witness for C2: both-set and neither-set are usage-rejected, and a
patch-file submission posts a payload with patches only. -/
theorem submission_payload_exclusive_witness :
    isUsageReject (validate_and_submit argsBothInputs (fun _ => "")) = true ∧
    isUsageReject (validate_and_submit argsNeitherInput (fun _ => "")) = true := by
  constructor
  · exact (submission_payload_exclusive argsBothInputs (fun _ => "") rfl).1
      rfl (by decide)
  · exact (submission_payload_exclusive argsNeitherInput (fun _ => "") rfl).2.1
      rfl rfl

/-- C3: whenever the polling loop stops — `pollLoopTrace` returns a
final status — every request it issued was format-less, it stopped on
the first terminal response (the stopping status is terminal, sits
right after the non-terminal prefix the calls walked through, and the
call count is that first terminal position plus one), and no further
request is issued after the terminal response: the trace is unchanged
by whatever responses would follow it. -/
theorem poll_loop_terminal (resps : List Status) (calls : List (Option String))
    (t : Status) (h : pollLoopTrace resps = (calls, some t)) :
    isTerminal t.status = true ∧
    (∀ c ∈ calls, c = (none : Option String)) ∧
    1 ≤ calls.length ∧
    resps[calls.length - 1]? = some t ∧
    (∀ i s, i + 1 < calls.length → resps[i]? = some s →
      isTerminal s.status = false) ∧
    (∀ extra, pollLoopTrace (List.take calls.length resps ++ extra) =
      (calls, some t)) := by
  induction resps generalizing calls with
  | nil => simp [pollLoopTrace] at h
  | cons s rest ih =>
    rw [pollLoopTrace] at h
    by_cases hs : isTerminal s.status = true
    · rw [if_pos hs] at h
      injection h with hc hv
      injection hv with hv
      subst hc
      subst hv
      refine ⟨hs, by simp, by simp, by simp,
        by intro i s' hi hg; simp only [List.length_singleton] at hi; omega,
        fun extra => ?_⟩
      simp only [List.length_singleton, List.take_succ_cons, List.take_zero,
        List.cons_append, List.nil_append]
      rw [pollLoopTrace, if_pos hs]
    · rw [if_neg hs] at h
      injection h with hc hv
      have hrec : pollLoopTrace rest = ((pollLoopTrace rest).1, some t) := by
        rw [← hv]
      obtain ⟨hterm, hall, hlen, hat, hpre, htake⟩ := ih _ hrec
      subst hc
      refine ⟨hterm, ?_, by rw [List.length_cons]; omega, ?_, ?_, ?_⟩
      · intro c hc
        rcases List.mem_cons.mp hc with h | h
        · exact h
        · exact hall c h
      · obtain ⟨m, hm⟩ : ∃ m, (pollLoopTrace rest).1.length = m + 1 :=
          ⟨(pollLoopTrace rest).1.length - 1, by omega⟩
        rw [List.length_cons, hm]
        rw [hm] at hat
        simpa using hat
      · intro i s' hilt hgs
        cases i with
        | zero =>
          rw [List.getElem?_cons_zero, Option.some_inj] at hgs
          rw [← hgs]
          simpa using hs
        | succ j =>
          rw [List.getElem?_cons_succ] at hgs
          refine hpre j s' ?_ hgs
          rw [List.length_cons] at hilt
          omega
      · intro extra
        rw [List.length_cons, List.take_succ_cons, List.cons_append,
          pollLoopTrace, if_neg hs, htake extra]

/-- Witness for C3: two responses, in-progress then done; the loop
issues exactly two format-less calls and stops on the `done` status. -/
theorem poll_loop_terminal_witness :
    isTerminal sampleDone.status = true ∧
    [sampleInProgress, sampleDone][([(none : Option String), none]).length - 1]? =
      some sampleDone :=
  have h := poll_loop_terminal [sampleInProgress, sampleDone] [none, none]
    sampleDone (by decide)
  ⟨h.1, h.2.2.2.1⟩

/-- C8: if a `KeyboardInterrupt` arrives during the polling loop before
any terminal response, the monitoring phase stops with the interrupted
outcome — printing the line that carries the current review id and
exiting with code 1 — and every request in the whole phase's trace is a
format-less poll: the "Fetching review results" fetch (the one request
made with a format) never happens. -/
theorem interrupt_aborts_poll (review_id fmt : String)
    (pre rest : List PollEvent)
    (hpre : ∀ e ∈ pre, ∃ s, e = PollEvent.reply s ∧ isTerminal s.status = false) :
    (monitor_and_fetch review_id fmt (pre ++ PollEvent.interrupt :: rest)).2 =
      .interrupted ["\n\nInterrupted by user. Review ID: " ++ review_id] 1 ∧
    (∀ c ∈ (monitor_and_fetch review_id fmt (pre ++ PollEvent.interrupt :: rest)).1,
      c = (none : Option String)) := by
  have hloop : ∀ (pre : List PollEvent),
      (∀ e ∈ pre, ∃ s, e = PollEvent.reply s ∧ isTerminal s.status = false) →
      (monitorLoop review_id (pre ++ PollEvent.interrupt :: rest)).2 =
        .interrupted ["\n\nInterrupted by user. Review ID: " ++ review_id] 1 ∧
      (∀ c ∈ (monitorLoop review_id (pre ++ PollEvent.interrupt :: rest)).1,
        c = (none : Option String)) := by
    intro pre hpre
    induction pre with
    | nil => exact ⟨rfl, by simp [monitorLoop]⟩
    | cons e l ih =>
      obtain ⟨s, rfl, hterm⟩ := hpre e (List.mem_cons_self e l)
      have ihl := ih fun x hx => hpre x (List.mem_cons_of_mem _ hx)
      rw [List.cons_append]
      constructor
      · rw [monitorLoop, if_neg (by simp [hterm])]
        exact ihl.1
      · rw [monitorLoop, if_neg (by simp [hterm])]
        intro c hc
        rcases List.mem_cons.mp hc with h | h
        · exact h
        · exact ihl.2 c h
  obtain ⟨h2, h1⟩ := hloop pre hpre
  have hmf : monitor_and_fetch review_id fmt (pre ++ PollEvent.interrupt :: rest) =
      monitorLoop review_id (pre ++ PollEvent.interrupt :: rest) := by
    simp only [monitor_and_fetch]
    rw [h2]
  rw [hmf]
  exact ⟨h2, h1⟩

/-- Witness for C8: interrupt after one in-progress reply. -/
theorem interrupt_aborts_poll_witness :
    (monitor_and_fetch "abc-123" "inline"
      ([PollEvent.reply sampleInProgress] ++ PollEvent.interrupt :: [])).2 =
      .interrupted ["\n\nInterrupted by user. Review ID: " ++ "abc-123"] 1 :=
  (interrupt_aborts_poll "abc-123" "inline" [PollEvent.reply sampleInProgress] []
    (fun _ he => ⟨sampleInProgress, List.mem_singleton.mp he, rfl⟩)).1

end AirSubmit
